import Mathlib

/-!
Shallow embedding of the MySQL_check health-check engine
(repository hpowernl/MySQL_check, Go).

Numbers: Go `float64` arithmetic is modelled by `ℚ`.  Every claim settled
here only involves values and threshold comparisons that are exact in both
semantics (integer-valued percentages, exact-decimal thresholds), so the
rational model is faithful on the inputs used.

Maps: Go `map[string]string` is modelled by an association list with
`List.lookup` (keys unique in the source, produced by SQL key/value rows).
-/

namespace MySQLCheck

/-- `type Level int` with `LevelOK, LevelWarn, LevelCrit, LevelSkip = iota`
(src/unnamed/part_001 lines 5-12). -/
inductive Level where
  | ok
  | warn
  | crit
  | skip
deriving DecidableEq

/-- The numeric value of each `Level` constant, per the Go `iota` order. -/
def Level.toNat : Level → Nat
  | .ok => 0
  | .warn => 1
  | .crit => 2
  | .skip => 3

/-- Go `<` on the `Level` int values (used as `ch.Level > worst`). -/
def Level.blt (a b : Level) : Bool := a.toNat < b.toNat

/-- The snapshot part of `db.MySQL` (src/internal/db/mysql.go lines 13-18):
status counters, configuration variables, version string.  The private
`db *sql.DB` handle carries no data read by the snapshot checks. -/
structure MySQL where
  Status : List (String × String)
  Vars : List (String × String)
  Version : String

/-- `Check` result record (src/unnamed/part_001 lines 29-36).
`Detail` is static display prose in the source; it is carried verbatim as a
string field but the long texts are elided to `""` here since no logic or
claim reads them. -/
structure Check where
  Name : String
  Value : String
  Level : Level
  Threshold : String
  Description : String
  Detail : String

/-- `Category` (src/unnamed/part_001 lines 38-41). -/
structure Category where
  Name : String
  Checks : List Check

/-- One iteration of the `Category.WorstLevel` loop (src/unnamed/part_001
lines 45-52): skip `LevelSkip` entries, otherwise take the running maximum
under the Go integer order on `Level`. -/
def worstStep (worst : Level) (ch : Check) : Level :=
  if ch.Level = Level.skip then worst
  else if Level.blt worst ch.Level then ch.Level else worst

/-- `Category.WorstLevel` loop as a fold over `worstStep`. -/
def Category.WorstLevel (c : Category) : Level :=
  c.Checks.foldl worstStep Level.ok

/-- One iteration of the `OverallLevel` loop (src/unnamed/part_001
lines 58-63). -/
def overallStep (worst : Level) (c : Category) : Level :=
  if Level.blt worst c.WorstLevel then c.WorstLevel else worst

/-- `OverallLevel` (src/unnamed/part_001 lines 56-65). -/
def OverallLevel (cats : List Category) : Level :=
  cats.foldl overallStep Level.ok

/-- `pct` (src/unnamed/part_001 lines 67-72): percentage with an `ok`
flag that is false exactly when the denominator is zero. -/
def pct (numerator denominator : ℚ) : ℚ × Bool :=
  if denominator = 0 then (0, false)
  else ((numerator * 100) / denominator, true)

/-- Reads a maximal run of leading decimal digits; returns the value read,
the number of digits consumed, and the rest of the input. -/
def readDigits : List Char → Nat × Nat × List Char
  | [] => (0, 0, [])
  | c :: cs =>
    if c.isDigit then
      let (v, n, rest) := readDigits cs
      ((c.toNat - 48) * 10 ^ n + v, n + 1, rest)
    else (0, 0, c :: cs)

/-- Reads an optional leading sign; returns `true` for a minus sign. -/
def parseSign : List Char → Bool × List Char
  | [] => (false, [])
  | c :: cs =>
    if c = '+' then (false, cs)
    else if c = '-' then (true, cs)
    else (false, c :: cs)

/-- Model of Go `strconv.ParseFloat(s, 64)` syntax on its decimal fragment:
optional sign, digits with optional fraction (at least one mantissa digit),
optional `e`/`E` exponent with optional sign; the whole string must be
consumed.  `none` models a syntax error (Go then returns value 0 alongside
the error, and every caller in the source discards the error).  Go's
additional hex-float, Inf/NaN and digit-underscore forms are outside the
decimal fragment and outside every input the claims touch. -/
def goParseFloat (s : String) : Option ℚ :=
  let (neg, cs1) := parseSign s.toList
  let (ip, ipn, cs2) := readDigits cs1
  let (fp, fpn, cs3) :=
    if cs2.head? = some '.' then readDigits cs2.tail else (0, 0, cs2)
  if ipn + fpn = 0 then none
  else
    let mant : ℚ := (if neg then -1 else 1) * ((ip : ℚ) + (fp : ℚ) / 10 ^ fpn)
    if cs3 = [] then some mant
    else if cs3.head? = some 'e' ∨ cs3.head? = some 'E' then
      let (eneg, r1) := parseSign cs3.tail
      let (e, en, r2) := readDigits r1
      if en = 0 ∨ r2 ≠ [] then none
      else some (if eneg then mant / 10 ^ e else mant * 10 ^ e)
    else none

/-- The "safe parse" idiom `f, _ := strconv.ParseFloat(v, 64)` used on
every counter and variable read: a string that does not parse yields 0. -/
def parseNumber (s : String) : ℚ := (goParseFloat s).getD 0

/-- `statusFloat` (src/internal/checks/system.go lines 220-227): missing
status keys read as 0, unparseable values read as 0. -/
def statusFloat (m : MySQL) (key : String) : ℚ :=
  match m.Status.lookup key with
  | none => 0
  | some v => parseNumber v

/-- `varFloat` (src/internal/checks/system.go lines 229-236). -/
def varFloat (m : MySQL) (key : String) : ℚ :=
  match m.Vars.lookup key with
  | none => 0
  | some v => parseNumber v

/-- Two-digit zero padding for the fractional part of `%.2f`. -/
def pad2 (n : Nat) : String :=
  if n < 10 then "0" ++ toString n else toString n

/-- Model of `fmt.Sprintf("%.2f", v)`: rounding to two decimals.  Exact on
every value the claims evaluate (all are exact at two decimals); at
half-ulp ties this model rounds half up. -/
def fmt2 (v : ℚ) : String :=
  let cn : Nat := (round (|v| * 100)).toNat
  (if v < 0 then "-" else "") ++ toString (cn / 100) ++ "." ++ pad2 (cn % 100)

/-- `fmtPct` (src/unnamed/part_001 lines 74-76). -/
def fmtPct (v : ℚ) : String := fmt2 v ++ "%"

/-- `fmtMin` (src/unnamed/part_001 lines 78-80), `%.0fmin`. -/
def fmtMin (v : ℚ) : String :=
  (if v < 0 then "-" else "") ++ toString (round |v|).toNat ++ "min"

/-- Go `v[:strings.Index(v, "-")]` step of `MySQL.VersionAtLeast`: the
prefix before the first dash (the whole string when there is no dash). -/
def dropDash (cs : List Char) : List Char :=
  cs.takeWhile (fun c => c != '-')

/-- Model of `fmt.Sscanf(v, "%d.%d.%d", &ma, &mi, &pa)` on version cores:
fields left unmatched keep their zero value, scanning stops at the first
mismatch.  (Sscanf `%d` would also accept a sign; server version numerals
are unsigned, so the digit fragment suffices.) -/
def sscanf3 (cs : List Char) : Nat × Nat × Nat :=
  let (ma, n1, r1) := readDigits cs
  if n1 = 0 then (0, 0, 0)
  else if r1.head? = some '.' then
    let (mi, n2, r3) := readDigits r1.tail
    if n2 = 0 then (ma, 0, 0)
    else if r3.head? = some '.' then
      let (pa, n3, _) := readDigits r3.tail
      if n3 = 0 then (ma, mi, 0) else (ma, mi, pa)
    else (ma, mi, 0)
  else (ma, 0, 0)

/-- `MySQL.VersionAtLeast` (src/internal/db/mysql.go lines 81-95). -/
def versionAtLeast (m : MySQL) (major minor patch : Nat) : Bool :=
  let (ma, mi, pa) := sscanf3 (dropDash m.Version.toList)
  if ma ≠ major then decide (ma > major)
  else if mi ≠ minor then decide (mi > minor)
  else decide (pa ≥ patch)

/-! ### Cache checks (src/internal/checks/cache.go) -/

/-- `checkThreadCacheHitRate` (cache.go lines 17-44). -/
def checkThreadCacheHitRate (m : MySQL) : Check :=
  let c : Check :=
    { Name := "Thread Cache Hit Rate", Value := "", Level := .ok,
      Threshold := "> 50% OK, <= 50% WARN",
      Description := "The percentage of times a requested thread is found in the cache.",
      Detail := "" }
  let created := statusFloat m "Threads_created"
  let connections := statusFloat m "Connections"
  if connections = 0 then { c with Value := "N/A", Level := .skip }
  else
    let v := 100 - (created * 100 / connections)
    { c with Value := fmtPct v, Level := if v > 50 then .ok else .warn }

/-- `checkThreadCacheRatio` (cache.go lines 46-73). -/
def checkThreadCacheRatio (m : MySQL) : Check :=
  let c : Check :=
    { Name := "Thread Cache Ratio", Value := "", Level := .ok,
      Threshold := "> 10% OK, <= 10% WARN",
      Description := "The efficiency of the thread cache for reusing threads.",
      Detail := "" }
  let cached := statusFloat m "Threads_cached"
  let created := statusFloat m "Threads_created"
  let (v, ok) := pct cached created
  if !ok then { c with Value := "N/A", Level := .skip }
  else { c with Value := fmtPct v, Level := if v > 10 then .ok else .warn }

/-- `checkTableCacheHitRate` (cache.go lines 75-121): branches on the
presence of the `Table_open_cache_hits` status key; the fallback
approximation runs only when that key is absent. -/
def checkTableCacheHitRate (m : MySQL) : Check :=
  let c : Check :=
    { Name := "Table Cache Hit Rate", Value := "", Level := .ok,
      Threshold := ">= 90% OK, < 90% WARN",
      Description := "Efficiency of the table open cache.",
      Detail := "" }
  match m.Status.lookup "Table_open_cache_hits" with
  | some _ =>
    let hitsF := statusFloat m "Table_open_cache_hits"
    let missF := statusFloat m "Table_open_cache_misses"
    let denom := hitsF + missF
    let (v, ok) := pct hitsF denom
    if !ok then { c with Value := "N/A", Level := .skip }
    else { c with Value := fmtPct v, Level := if v ≥ 90 then .ok else .warn }
  | none =>
    let openTables := statusFloat m "Open_tables"
    let openedTables := statusFloat m "Opened_tables"
    let (v, ok) := pct openTables openedTables
    if !ok then { c with Value := "N/A", Level := .skip }
    else { c with Value := fmtPct v, Level := if v ≥ 90 then .ok else .warn }

/-- `checkTableDefCacheHitRate` (cache.go lines 123-151). -/
def checkTableDefCacheHitRate (m : MySQL) : Check :=
  let c : Check :=
    { Name := "Table Def Cache Hit Rate", Value := "", Level := .ok,
      Threshold := "> 75% OK, <= 75% WARN",
      Description := "The efficiency of the table definition cache.",
      Detail := "" }
  let openDefs := statusFloat m "Open_table_definitions"
  let openedDefs := statusFloat m "Opened_table_definitions"
  let (v, ok) := pct openDefs openedDefs
  if !ok then { c with Value := "N/A", Level := .skip }
  else { c with Value := fmtPct v, Level := if v > 75 then .ok else .warn }

/-- `checkTableLockingEfficiency` (cache.go lines 153-182). -/
def checkTableLockingEfficiency (m : MySQL) : Check :=
  let c : Check :=
    { Name := "Table Locking Efficiency", Value := "", Level := .ok,
      Threshold := "> 95% OK, <= 95% WARN",
      Description := "Percentage of table locks acquired without waiting.",
      Detail := "" }
  let immediate := statusFloat m "Table_locks_immediate"
  let waited := statusFloat m "Table_locks_waited"
  let denom := immediate + waited
  let (v, ok) := pct immediate denom
  if !ok then { c with Value := "N/A", Level := .skip }
  else { c with Value := fmtPct v, Level := if v > 95 then .ok else .warn }

/-! ### Snapshot-driven system checks (src/internal/checks/system.go).
`checkCPU`, `checkDiskSpace` and `checkMemory` consume host metrics
(/proc reads, statfs), not the snapshot counters, and are outside the
snapshot core the claims quantify over. -/

/-- `checkConnectionUtilization` (system.go lines 157-187). -/
def checkConnectionUtilization (m : MySQL) : Check :=
  let c : Check :=
    { Name := "Connection Utilization", Value := "", Level := .ok,
      Threshold := "< 70% OK, 70-85% WARN, >= 85% CRIT",
      Description := "Utilization of available database connections.",
      Detail := "" }
  let maxUsed := statusFloat m "Max_used_connections"
  let maxConn := varFloat m "max_connections"
  let (v, ok) := pct maxUsed maxConn
  if !ok then { c with Value := "N/A", Level := .skip }
  else
    { c with
      Value := fmtPct v,
      Level := if v < 70 then .ok else if v < 85 then .warn else .crit }

/-- `checkOpenFiles` (system.go lines 189-216). -/
def checkOpenFiles (m : MySQL) : Check :=
  let c : Check :=
    { Name := "Open Files Utilization", Value := "", Level := .ok,
      Threshold := "< 85% OK, >= 85% WARN",
      Description := "Usage of file descriptors by MySQL.",
      Detail := "" }
  let openFiles := statusFloat m "Open_files"
  let limit := varFloat m "open_files_limit"
  let (v, ok) := pct openFiles limit
  if !ok then { c with Value := "N/A", Level := .skip }
  else { c with Value := fmtPct v, Level := if v < 85 then .ok else .warn }

/-! ### Engine checks (src/internal/checks/system.go, engine section) -/

/-- `checkMyISAMCacheHitRate`. -/
def checkMyISAMCacheHitRate (m : MySQL) : Check :=
  let c : Check :=
    { Name := "MyISAM Cache Hit Rate", Value := "", Level := .ok,
      Threshold := "> 95% OK, <= 95% WARN",
      Description := "Effectiveness of the MyISAM key cache (index access).",
      Detail := "" }
  let reads := statusFloat m "Key_reads"
  let requests := statusFloat m "Key_read_requests"
  if requests = 0 then { c with Value := "N/A", Level := .skip }
  else
    let v := 100 - (reads * 100 / requests)
    { c with Value := fmtPct v, Level := if v > 95 then .ok else .warn }

/-- `checkMyISAMKeyWriteRatio`. -/
def checkMyISAMKeyWriteRatio (m : MySQL) : Check :=
  let c : Check :=
    { Name := "MyISAM Key Write Ratio", Value := "", Level := .ok,
      Threshold := "efficiency >= 90% OK, < 90% WARN",
      Description := "The proportion of physical writes of a key block to the cache.",
      Detail := "" }
  let writes := statusFloat m "Key_writes"
  let requests := statusFloat m "Key_write_requests"
  if requests = 0 then { c with Value := "N/A", Level := .skip }
  else
    let ratio := writes * 100 / requests
    let efficiency := 100 - ratio
    { c with
      Value := fmt2 ratio ++ "% (eff: " ++ fmt2 efficiency ++ "%)",
      Level := if efficiency ≥ 90 then .ok else .warn }

/-- `checkInnoDBCacheHitRate`. -/
def checkInnoDBCacheHitRate (m : MySQL) : Check :=
  let c : Check :=
    { Name := "InnoDB Cache Hit Rate", Value := "", Level := .ok,
      Threshold := "> 90% OK, <= 90% WARN",
      Description := "How often data is retrieved from the buffer pool instead of disk.",
      Detail := "" }
  let requests := statusFloat m "Innodb_buffer_pool_read_requests"
  let reads := statusFloat m "Innodb_buffer_pool_reads"
  if requests = 0 then { c with Value := "N/A", Level := .skip }
  else
    let v := (requests - reads) * 100 / requests
    { c with Value := fmtPct v, Level := if v > 90 then .ok else .warn }

/-- `checkRedoLogCoverage` (system.go lines 437-490): prefers the explicit
`innodb_redo_log_capacity` variable on servers of version at least 8.0.30,
falling back to `innodb_log_files_in_group * innodb_log_file_size`. -/
def checkRedoLogCoverage (m : MySQL) : Check :=
  let c : Check :=
    { Name := "InnoDB Log File Size", Value := "", Level := .ok,
      Threshold := ">= 45min OK, < 45min WARN (ideal 45-75min)",
      Description := "Minutes of redo log capacity before a flush is required.",
      Detail := "" }
  match m.Status.lookup "Uptime" with
  | none => { c with Value := "N/A", Level := .skip }
  | some uptimeStr =>
    let uptime := parseNumber uptimeStr
    let osLogWritten := statusFloat m "Innodb_os_log_written"
    if osLogWritten = 0 then { c with Value := "N/A", Level := .skip }
    else
      let redoCap0 : ℚ :=
        if versionAtLeast m 8 0 30 then
          match m.Vars.lookup "innodb_redo_log_capacity" with
          | some v => parseNumber v
          | none => 0
        else 0
      let redoCap :=
        if redoCap0 = 0 then
          varFloat m "innodb_log_files_in_group" * varFloat m "innodb_log_file_size"
        else redoCap0
      if redoCap = 0 then { c with Value := "N/A", Level := .skip }
      else
        let minutes := (uptime / 60) * redoCap / osLogWritten
        { c with
          Value := fmtMin minutes,
          Level := if minutes ≥ 45 then .ok else .warn }

/-- `checkInnoDBDirtyPages`. -/
def checkInnoDBDirtyPages (m : MySQL) : Check :=
  let c : Check :=
    { Name := "InnoDB Dirty Pages Ratio", Value := "", Level := .ok,
      Threshold := "< 75% OK, >= 75% WARN",
      Description := "Percentage of modified pages in memory not yet written back to disk.",
      Detail := "" }
  let dirty := statusFloat m "Innodb_buffer_pool_pages_dirty"
  let total := statusFloat m "Innodb_buffer_pool_pages_total"
  let (v, ok) := pct dirty total
  if !ok then { c with Value := "N/A", Level := .skip }
  else { c with Value := fmtPct v, Level := if v < 75 then .ok else .warn }

/-! ### Query checks (src/internal/checks/queries.go).
`checkQueryTruncation` issues a live query and is outside the snapshot
core; the other four are pure snapshot functions. -/

/-- `checkSortMergePassRatio` (queries.go lines 20-50). -/
def checkSortMergePassRatio (m : MySQL) : Check :=
  let c : Check :=
    { Name := "Sort Merge Passes Ratio", Value := "", Level := .ok,
      Threshold := "< 10% OK, >= 10% WARN",
      Description := "The effectiveness of sorting operations.",
      Detail := "" }
  let passes := statusFloat m "Sort_merge_passes"
  let scans := statusFloat m "Sort_scan"
  let ranges := statusFloat m "Sort_range"
  let denom := scans + ranges
  let (v, ok) := pct passes denom
  if !ok then { c with Value := "N/A", Level := .skip }
  else { c with Value := fmtPct v, Level := if v < 10 then .ok else .warn }

/-- `checkTempDiskData` (queries.go lines 52-80). -/
def checkTempDiskData (m : MySQL) : Check :=
  let c : Check :=
    { Name := "Temporary Disk Data", Value := "", Level := .ok,
      Threshold := "<= 25% OK, > 25% WARN",
      Description := "The percentage of temporary tables created on disk instead of in memory.",
      Detail := "" }
  let diskTables := statusFloat m "Created_tmp_disk_tables"
  let totalTables := statusFloat m "Created_tmp_tables"
  let (v, ok) := pct diskTables totalTables
  if !ok then { c with Value := "N/A", Level := .skip }
  else { c with Value := fmtPct v, Level := if v ≤ 25 then .ok else .warn }

/-- `checkFlushingLogs` (queries.go lines 82-113). -/
def checkFlushingLogs (m : MySQL) : Check :=
  let c : Check :=
    { Name := "Flushing Logs", Value := "", Level := .ok,
      Threshold := "< 5% OK, 5-20% WARN, > 20% CRIT",
      Description := "The percentage of log writes that had to wait for the log buffer to be flushed.",
      Detail := "" }
  let waits := statusFloat m "Innodb_log_waits"
  let writes := statusFloat m "Innodb_log_writes"
  let (v, ok) := pct waits writes
  if !ok then { c with Value := "N/A", Level := .skip }
  else
    { c with
      Value := fmtPct v,
      Level := if v < 5 then .ok else if v ≤ 20 then .warn else .crit }

/-- `checkQCacheFragmentation` (queries.go lines 115-164): all four query
cache counters must be present; the delete-rate leg is computed only when
inserts are positive. -/
def checkQCacheFragmentation (m : MySQL) : Check :=
  let c : Check :=
    { Name := "QCache Fragmentation", Value := "", Level := .ok,
      Threshold := "frag < 10% AND del < 20% OK, else WARN",
      Description := "Query cache fragmentation and eviction rate.",
      Detail := "" }
  match m.Status.lookup "Qcache_free_blocks", m.Status.lookup "Qcache_total_blocks",
        m.Status.lookup "Qcache_lowmem_prunes", m.Status.lookup "Qcache_inserts" with
  | some freeBlocks, some totalBlocks, some lowmemPrunes, some inserts =>
    let freeF := parseNumber freeBlocks
    let totalF := parseNumber totalBlocks
    let prunesF := parseNumber lowmemPrunes
    let insertsF := parseNumber inserts
    let (frag, fragOK) := pct freeF totalF
    let (delRate, delRateOK) : ℚ × Bool :=
      if insertsF > 0 then (prunesF * 100 / insertsF, true) else (0, false)
    if !fragOK then { c with Value := "N/A", Level := .skip }
    else
      { c with
        Value := "frag=" ++ fmt2 frag ++ "% del=" ++ fmt2 delRate ++ "%",
        Level := if frag < 10 ∧ (!delRateOK ∨ delRate < 20) then .ok else .warn }
  | _, _, _, _ => { c with Value := "N/A", Level := .skip }

/-! ### Category runners.
Each Go runner receives the `*db.MySQL` pointer and appends the result of
each check in order; no statement in any runner or check body assigns to
`m.Status`, `m.Vars` or `m.Version`.  The state-threaded variants below
mirror that statement sequence explicitly, passing the snapshot through
every step, so that read-only-ness is a stated theorem of the embedding. -/

/-- `RunCacheChecks` (cache.go lines 7-15). -/
def RunCacheChecks (m : MySQL) : List Check :=
  [checkThreadCacheHitRate m, checkThreadCacheRatio m, checkTableCacheHitRate m,
   checkTableDefCacheHitRate m, checkTableLockingEfficiency m]

/-- `RunEngineChecks`. -/
def RunEngineChecks (m : MySQL) : List Check :=
  [checkMyISAMCacheHitRate m, checkMyISAMKeyWriteRatio m, checkInnoDBCacheHitRate m,
   checkRedoLogCoverage m, checkInnoDBDirtyPages m]

/-- Runs a sequence of checks threading the snapshot state from one call
to the next, as the Go runners thread the `*db.MySQL` pointer. -/
def runChecksSt : List (MySQL → Check × MySQL) → MySQL → List Check × MySQL
  | [], m => ([], m)
  | f :: fs, m =>
    let (c, m1) := f m
    let (cs, m2) := runChecksSt fs m1
    (c :: cs, m2)

/-- A pure check lifted to the state-passing form: the translated body
only reads the snapshot, so the state component is returned as received. -/
def liftCheck (f : MySQL → Check) (m : MySQL) : Check × MySQL := (f m, m)

/-- `RunCacheChecks` in state-threading form. -/
def RunCacheChecksSt (m : MySQL) : List Check × MySQL :=
  runChecksSt
    [liftCheck checkThreadCacheHitRate, liftCheck checkThreadCacheRatio,
     liftCheck checkTableCacheHitRate, liftCheck checkTableDefCacheHitRate,
     liftCheck checkTableLockingEfficiency] m

/-- `RunEngineChecks` in state-threading form. -/
def RunEngineChecksSt (m : MySQL) : List Check × MySQL :=
  runChecksSt
    [liftCheck checkMyISAMCacheHitRate, liftCheck checkMyISAMKeyWriteRatio,
     liftCheck checkInnoDBCacheHitRate, liftCheck checkRedoLogCoverage,
     liftCheck checkInnoDBDirtyPages] m

/-! ### Aggregation lemmas -/

lemma worstStep_ne_skip (w : Level) (ch : Check) (hw : w ≠ Level.skip) :
    worstStep w ch ≠ Level.skip := by
  by_cases h1 : ch.Level = Level.skip
  · simpa [worstStep, h1] using hw
  · by_cases h2 : Level.blt w ch.Level
    · simp [worstStep, h1, h2]
    · simpa [worstStep, h1, h2] using hw

lemma foldl_worstStep_ne_skip :
    ∀ (l : List Check) (w : Level), w ≠ Level.skip → l.foldl worstStep w ≠ Level.skip
  | [], _, hw => hw
  | ch :: l, w, hw => foldl_worstStep_ne_skip l _ (worstStep_ne_skip w ch hw)

lemma toNat_le_worstStep (w : Level) (ch : Check) :
    w.toNat ≤ (worstStep w ch).toNat := by
  by_cases h1 : ch.Level = Level.skip
  · simp [worstStep, h1]
  · by_cases h2 : Level.blt w ch.Level
    · have := h2
      simp only [Level.blt, decide_eq_true_eq] at this
      simp [worstStep, h1, h2]
      omega
    · simp [worstStep, h1, h2]

lemma worstStep_level_le (w : Level) (ch : Check) (h : ch.Level ≠ Level.skip) :
    ch.Level.toNat ≤ (worstStep w ch).toNat := by
  by_cases h2 : Level.blt w ch.Level
  · simp [worstStep, h, h2]
  · have := h2
    simp only [Level.blt, decide_eq_true_eq] at this
    simp [worstStep, h, h2]
    omega

lemma foldl_worstStep_init_le :
    ∀ (l : List Check) (w : Level), w.toNat ≤ (l.foldl worstStep w).toNat
  | [], _ => le_refl _
  | ch :: l, w =>
    le_trans (toNat_le_worstStep w ch) (foldl_worstStep_init_le l (worstStep w ch))

lemma foldl_worstStep_mem_le (l : List Check) :
    ∀ (w : Level) (ch : Check), ch ∈ l → ch.Level ≠ Level.skip →
      ch.Level.toNat ≤ (l.foldl worstStep w).toNat := by
  induction l with
  | nil => intro w ch h; cases h
  | cons a l ih =>
    intro w ch hmem hne
    rcases List.mem_cons.mp hmem with rfl | h
    · exact le_trans (worstStep_level_le w ch hne)
        (foldl_worstStep_init_le l (worstStep w ch))
    · exact ih (worstStep w a) ch h hne

lemma foldl_worstStep_attained (l : List Check) :
    ∀ w : Level, l.foldl worstStep w = w ∨
      ∃ ch ∈ l, ch.Level ≠ Level.skip ∧ l.foldl worstStep w = ch.Level := by
  induction l with
  | nil => intro w; left; rfl
  | cons a l ih =>
    intro w
    have hstep : worstStep w a = w ∨ (a.Level ≠ Level.skip ∧ worstStep w a = a.Level) := by
      by_cases h1 : a.Level = Level.skip
      · left; simp [worstStep, h1]
      · by_cases h2 : Level.blt w a.Level
        · right; exact ⟨h1, by simp [worstStep, h1, h2]⟩
        · left; simp [worstStep, h1, h2]
    rcases ih (worstStep w a) with h | ⟨ch, hm, hne, he⟩
    · rcases hstep with h2 | ⟨hne, h2⟩
      · left; rw [List.foldl_cons, h, h2]
      · right; exact ⟨a, List.mem_cons_self a l, hne, by rw [List.foldl_cons, h, h2]⟩
    · right; exact ⟨ch, List.mem_cons_of_mem a hm, hne, by rw [List.foldl_cons]; exact he⟩

lemma foldl_worstStep_all_skip (l : List Check) :
    ∀ w : Level, (∀ ch ∈ l, ch.Level = Level.skip) → l.foldl worstStep w = w := by
  induction l with
  | nil => intro w _; rfl
  | cons a l ih =>
    intro w h
    rw [List.foldl_cons]
    have ha : a.Level = Level.skip := h a (List.mem_cons_self a l)
    rw [show worstStep w a = w by simp [worstStep, ha]]
    exact ih w (fun ch hch => h ch (List.mem_cons_of_mem a hch))

lemma worstLevel_ne_skip (c : Category) : c.WorstLevel ≠ Level.skip :=
  foldl_worstStep_ne_skip c.Checks Level.ok (by simp)

lemma toNat_le_two_of_ne_skip (l : Level) (h : l ≠ Level.skip) : l.toNat ≤ 2 := by
  cases l <;> simp [Level.toNat] at *

lemma eq_crit_of_toNat_eq_two (l : Level) (h : l.toNat = 2) : l = Level.crit := by
  cases l <;> first | rfl | simp [Level.toNat] at h

lemma toNat_le_overallStep (w : Level) (c : Category) :
    w.toNat ≤ (overallStep w c).toNat := by
  by_cases h2 : Level.blt w c.WorstLevel
  · have := h2
    simp only [Level.blt, decide_eq_true_eq] at this
    simp [overallStep, h2]
    omega
  · simp [overallStep, h2]

lemma overallStep_cat_le (w : Level) (c : Category) :
    c.WorstLevel.toNat ≤ (overallStep w c).toNat := by
  by_cases h2 : Level.blt w c.WorstLevel
  · simp [overallStep, h2]
  · have := h2
    simp only [Level.blt, decide_eq_true_eq] at this
    simp [overallStep, h2]
    omega

lemma overallStep_le_two (w : Level) (c : Category) (hw : w.toNat ≤ 2) :
    (overallStep w c).toNat ≤ 2 := by
  by_cases h2 : Level.blt w c.WorstLevel
  · simp only [overallStep, h2, if_true]
    exact toNat_le_two_of_ne_skip _ (worstLevel_ne_skip c)
  · simpa [overallStep, h2] using hw

lemma foldl_overallStep_le_two :
    ∀ (cats : List Category) (w : Level), w.toNat ≤ 2 →
      (cats.foldl overallStep w).toNat ≤ 2
  | [], _, hw => hw
  | c :: cats, w, hw =>
    foldl_overallStep_le_two cats (overallStep w c) (overallStep_le_two w c hw)

lemma foldl_overallStep_init_le :
    ∀ (cats : List Category) (w : Level), w.toNat ≤ (cats.foldl overallStep w).toNat
  | [], _ => le_refl _
  | c :: cats, w =>
    le_trans (toNat_le_overallStep w c) (foldl_overallStep_init_le cats (overallStep w c))

lemma foldl_overallStep_mem_le (cats : List Category) :
    ∀ (w : Level) (c : Category), c ∈ cats →
      c.WorstLevel.toNat ≤ (cats.foldl overallStep w).toNat := by
  induction cats with
  | nil => intro w c h; cases h
  | cons a cats ih =>
    intro w c hmem
    rcases List.mem_cons.mp hmem with rfl | h
    · exact le_trans (overallStep_cat_le w c)
        (foldl_overallStep_init_le cats (overallStep w c))
    · exact ih (overallStep w a) c h

lemma worstStep_crit (w : Level) (ch : Check) (hw : w ≠ Level.skip)
    (h : ch.Level = Level.crit) : worstStep w ch = Level.crit := by
  unfold worstStep
  rw [h]
  by_cases h2 : Level.blt w Level.crit
  · simp [h2]
  · have hge : ¬ w.toNat < Level.crit.toNat := by simpa [Level.blt] using h2
    have hle := toNat_le_two_of_ne_skip w hw
    have hc2 : Level.crit.toNat = 2 := rfl
    have hw2 : w.toNat = 2 := by omega
    simp [h2, eq_crit_of_toNat_eq_two w hw2]

/-! ### Claim theorems: aggregation -/

/-- C3: for every category, `WorstLevel` is the maximum severity of its
checks under OK < WARN < CRIT with NOT_APPLICABLE (`LevelSkip`) entries
excluded: it bounds every non-skip check's level from above, it is OK or
attained by some non-skip check, and it defaults to OK when the category
is empty or all of its checks are skipped. -/
theorem C3_worstLevel_is_max_ignoring_skip (c : Category) :
    (∀ ch ∈ c.Checks, ch.Level ≠ Level.skip → ch.Level.toNat ≤ c.WorstLevel.toNat)
    ∧ (c.WorstLevel = Level.ok ∨
        ∃ ch ∈ c.Checks, ch.Level ≠ Level.skip ∧ c.WorstLevel = ch.Level)
    ∧ ((∀ ch ∈ c.Checks, ch.Level = Level.skip) → c.WorstLevel = Level.ok)
    ∧ (c.Checks = [] → c.WorstLevel = Level.ok) := by
  refine ⟨?_, ?_, ?_, ?_⟩
  · intro ch hm hne
    exact foldl_worstStep_mem_le c.Checks Level.ok ch hm hne
  · exact foldl_worstStep_attained c.Checks Level.ok
  · intro h
    exact foldl_worstStep_all_skip c.Checks Level.ok h
  · intro h
    unfold Category.WorstLevel
    rw [h]
    rfl

/-- A bare check used to build concrete categories in witnesses. -/
def mkCheck (l : Level) : Check :=
  { Name := "", Value := "", Level := l, Threshold := "", Description := "", Detail := "" }

/-- Witness for C3 at a concrete all-skip category. -/
theorem C3_worstLevel_is_max_ignoring_skip_witness :
    ({ Name := "t", Checks := [mkCheck Level.skip, mkCheck Level.skip] } : Category).WorstLevel
      = Level.ok := by
  apply (C3_worstLevel_is_max_ignoring_skip _).2.2.1
  intro ch hm
  rcases List.mem_cons.mp hm with rfl | hm
  · rfl
  · rcases List.mem_cons.mp hm with rfl | hm
    · rfl
    · cases hm

/-- C10: the aggregation never returns the not-applicable level: every
category's `WorstLevel` and every list's `OverallLevel` is OK, WARN or
CRIT (never `LevelSkip`), even though `LevelSkip` is the numerically
greatest `Level` value (3 > 2 = `LevelCrit`), because the fold explicitly
excludes skip entries. -/
theorem C10_aggregation_never_skip :
    (∀ c : Category, c.WorstLevel ≠ Level.skip)
    ∧ (∀ cats : List Category, OverallLevel cats ≠ Level.skip)
    ∧ Level.crit.toNat < Level.skip.toNat := by
  refine ⟨worstLevel_ne_skip, ?_, by simp [Level.toNat]⟩
  intro cats
  have h2 : (OverallLevel cats).toNat ≤ 2 :=
    foldl_overallStep_le_two cats Level.ok (by simp [Level.toNat])
  intro hcontra
  rw [hcontra] at h2
  simp [Level.toNat] at h2

/-- C8: overall severity is monotonic in CRIT checks: appending a CRIT
check to any category of any category list makes `OverallLevel` equal to
CRIT, whatever the other checks' levels. -/
theorem C8_overall_crit_monotonic (pre post : List Category) (cat : Category) (ch : Check)
    (h : ch.Level = Level.crit) :
    OverallLevel (pre ++ { cat with Checks := cat.Checks ++ [ch] } :: post) = Level.crit := by
  have hW : cat.Checks.foldl worstStep Level.ok ≠ Level.skip :=
    foldl_worstStep_ne_skip cat.Checks Level.ok (by simp)
  have hstep : worstStep (cat.Checks.foldl worstStep Level.ok) ch = Level.crit :=
    worstStep_crit _ ch hW h
  have h1 : ({ cat with Checks := cat.Checks ++ [ch] } : Category).WorstLevel = Level.crit := by
    unfold Category.WorstLevel
    rw [List.foldl_append]
    simpa [List.foldl] using hstep
  have hmem : ({ cat with Checks := cat.Checks ++ [ch] } : Category)
      ∈ pre ++ { cat with Checks := cat.Checks ++ [ch] } :: post := by
    simp
  have hlb := foldl_overallStep_mem_le
    (pre ++ { cat with Checks := cat.Checks ++ [ch] } :: post) Level.ok _ hmem
  rw [h1] at hlb
  have hfold : OverallLevel (pre ++ { cat with Checks := cat.Checks ++ [ch] } :: post)
      = (pre ++ { cat with Checks := cat.Checks ++ [ch] } :: post).foldl overallStep Level.ok :=
    rfl
  rw [← hfold] at hlb
  have hub : (OverallLevel (pre ++ { cat with Checks := cat.Checks ++ [ch] } :: post)).toNat ≤ 2 :=
    foldl_overallStep_le_two _ Level.ok (by simp [Level.toNat])
  have hc2 : Level.crit.toNat = 2 := rfl
  exact eq_crit_of_toNat_eq_two _ (by omega)

/-- Witness for C8 at a concrete two-category list. -/
theorem C8_overall_crit_monotonic_witness :
    OverallLevel ([⟨"s", [mkCheck Level.skip]⟩] ++
        { Name := "t", Checks := [mkCheck Level.ok] ++ [mkCheck Level.crit] } :: []) = Level.crit :=
  C8_overall_crit_monotonic [⟨"s", [mkCheck Level.skip]⟩] [] ⟨"t", [mkCheck Level.ok]⟩
    (mkCheck Level.crit) rfl

/-! ### Claim theorems: percentage helper and zero denominators -/

/-- C2: the percentage helper is undefined (`ok = false`) exactly when the
denominator is 0 and is `numerator*100/denominator` otherwise, with
`pct 0 D = (0, true)` for `D ≠ 0` and `pct N 0` undefined; and in every
snapshot check that divides by a snapshot counter, a zero denominator
makes that single check's result NOT_APPLICABLE (`LevelSkip`, value
`"N/A"`) rather than a computed 0 or an error. -/
theorem C2_zero_denominator_not_applicable :
    (∀ N D : ℚ, D ≠ 0 → pct N D = ((N * 100) / D, true))
    ∧ (∀ N : ℚ, pct N 0 = (0, false))
    ∧ (∀ D : ℚ, D ≠ 0 → pct 0 D = (0, true))
    ∧ (∀ m : MySQL, statusFloat m "Connections" = 0 →
        (checkThreadCacheHitRate m).Level = Level.skip
        ∧ (checkThreadCacheHitRate m).Value = "N/A")
    ∧ (∀ m : MySQL, statusFloat m "Threads_created" = 0 →
        (checkThreadCacheRatio m).Level = Level.skip
        ∧ (checkThreadCacheRatio m).Value = "N/A")
    ∧ (∀ m : MySQL, statusFloat m "Key_read_requests" = 0 →
        (checkMyISAMCacheHitRate m).Level = Level.skip
        ∧ (checkMyISAMCacheHitRate m).Value = "N/A")
    ∧ (∀ m : MySQL, statusFloat m "Key_write_requests" = 0 →
        (checkMyISAMKeyWriteRatio m).Level = Level.skip
        ∧ (checkMyISAMKeyWriteRatio m).Value = "N/A")
    ∧ (∀ m : MySQL, statusFloat m "Innodb_buffer_pool_read_requests" = 0 →
        (checkInnoDBCacheHitRate m).Level = Level.skip
        ∧ (checkInnoDBCacheHitRate m).Value = "N/A")
    ∧ (∀ m : MySQL, statusFloat m "Innodb_os_log_written" = 0 →
        (checkRedoLogCoverage m).Level = Level.skip
        ∧ (checkRedoLogCoverage m).Value = "N/A")
    ∧ (∀ m : MySQL, varFloat m "max_connections" = 0 →
        (checkConnectionUtilization m).Level = Level.skip
        ∧ (checkConnectionUtilization m).Value = "N/A")
    ∧ (∀ m : MySQL, varFloat m "open_files_limit" = 0 →
        (checkOpenFiles m).Level = Level.skip
        ∧ (checkOpenFiles m).Value = "N/A")
    ∧ (∀ (m : MySQL) (x : String), m.Status.lookup "Table_open_cache_hits" = some x →
        statusFloat m "Table_open_cache_hits" + statusFloat m "Table_open_cache_misses" = 0 →
        (checkTableCacheHitRate m).Level = Level.skip
        ∧ (checkTableCacheHitRate m).Value = "N/A")
    ∧ (∀ m : MySQL, m.Status.lookup "Table_open_cache_hits" = none →
        statusFloat m "Opened_tables" = 0 →
        (checkTableCacheHitRate m).Level = Level.skip
        ∧ (checkTableCacheHitRate m).Value = "N/A")
    ∧ (∀ m : MySQL, statusFloat m "Opened_table_definitions" = 0 →
        (checkTableDefCacheHitRate m).Level = Level.skip
        ∧ (checkTableDefCacheHitRate m).Value = "N/A")
    ∧ (∀ m : MySQL,
        statusFloat m "Table_locks_immediate" + statusFloat m "Table_locks_waited" = 0 →
        (checkTableLockingEfficiency m).Level = Level.skip
        ∧ (checkTableLockingEfficiency m).Value = "N/A")
    ∧ (∀ m : MySQL, statusFloat m "Innodb_buffer_pool_pages_total" = 0 →
        (checkInnoDBDirtyPages m).Level = Level.skip
        ∧ (checkInnoDBDirtyPages m).Value = "N/A")
    ∧ (∀ m : MySQL, statusFloat m "Sort_scan" + statusFloat m "Sort_range" = 0 →
        (checkSortMergePassRatio m).Level = Level.skip
        ∧ (checkSortMergePassRatio m).Value = "N/A")
    ∧ (∀ m : MySQL, statusFloat m "Created_tmp_tables" = 0 →
        (checkTempDiskData m).Level = Level.skip
        ∧ (checkTempDiskData m).Value = "N/A")
    ∧ (∀ m : MySQL, statusFloat m "Innodb_log_writes" = 0 →
        (checkFlushingLogs m).Level = Level.skip
        ∧ (checkFlushingLogs m).Value = "N/A")
    ∧ (∀ (m : MySQL) (a b e d : String),
        m.Status.lookup "Qcache_free_blocks" = some a →
        m.Status.lookup "Qcache_total_blocks" = some b →
        m.Status.lookup "Qcache_lowmem_prunes" = some e →
        m.Status.lookup "Qcache_inserts" = some d →
        parseNumber b = 0 →
        (checkQCacheFragmentation m).Level = Level.skip
        ∧ (checkQCacheFragmentation m).Value = "N/A") := by
  refine ⟨?_, ?_, ?_, ?_, ?_, ?_, ?_, ?_, ?_, ?_, ?_, ?_, ?_, ?_, ?_, ?_, ?_, ?_, ?_, ?_⟩
  · intro N D hD
    simp [pct, hD]
  · intro N
    simp [pct]
  · intro D hD
    simp [pct, hD]
  · intro m h
    simp [checkThreadCacheHitRate, h]
  · intro m h
    simp [checkThreadCacheRatio, pct, h]
  · intro m h
    simp [checkMyISAMCacheHitRate, h]
  · intro m h
    simp [checkMyISAMKeyWriteRatio, h]
  · intro m h
    simp [checkInnoDBCacheHitRate, h]
  · intro m h
    unfold checkRedoLogCoverage
    cases hu : m.Status.lookup "Uptime" <;> simp [hu, h]
  · intro m h
    simp [checkConnectionUtilization, pct, h]
  · intro m h
    simp [checkOpenFiles, pct, h]
  · intro m x hx h
    simp [checkTableCacheHitRate, hx, pct, h]
  · intro m hx h
    simp [checkTableCacheHitRate, hx, pct, h]
  · intro m h
    simp [checkTableDefCacheHitRate, pct, h]
  · intro m h
    simp [checkTableLockingEfficiency, pct, h]
  · intro m h
    simp [checkInnoDBDirtyPages, pct, h]
  · intro m h
    simp [checkSortMergePassRatio, pct, h]
  · intro m h
    simp [checkTempDiskData, pct, h]
  · intro m h
    simp [checkFlushingLogs, pct, h]
  · intro m a b e d ha hb he hd h
    simp [checkQCacheFragmentation, ha, hb, he, hd, pct, h]

/-- Witness for C2 at concrete inputs: an empty snapshot (every counter
reads 0) makes each division-based check NOT_APPLICABLE, and the
percentage helper is defined at denominator 5 and undefined at 0. -/
theorem C2_zero_denominator_not_applicable_witness :
    pct 0 5 = (0, true)
    ∧ pct 3 0 = (0, false)
    ∧ (checkThreadCacheHitRate ⟨[], [], ""⟩).Level = Level.skip
    ∧ (checkConnectionUtilization ⟨[], [], ""⟩).Level = Level.skip
    ∧ (checkRedoLogCoverage ⟨[], [], ""⟩).Level = Level.skip
    ∧ (checkTableCacheHitRate ⟨[], [], ""⟩).Level = Level.skip := by
  obtain ⟨-, h2, h3, h4, -, -, -, -, h9, h10, -, -, h13, -, -, -, -, -, -, -⟩ :=
    C2_zero_denominator_not_applicable
  refine ⟨h3 5 (by norm_num), h2 3, ?_, ?_, ?_, ?_⟩
  · exact (h4 ⟨[], [], ""⟩ rfl).1
  · exact (h10 ⟨[], [], ""⟩ rfl).1
  · exact (h9 ⟨[], [], ""⟩ rfl).1
  · exact (h13 ⟨[], [], ""⟩ rfl rfl).1

/-! ### Claim theorems: individual check formulas -/

/-- C6: Connection Utilization computes
`Max_used_connections / max_connections * 100` and classifies the value
`v` as OK when `v < 70`, WARN when `70 ≤ v < 85`, CRIT when `v ≥ 85`
(so 70 is WARN, not OK — see the witness). -/
theorem C6_connection_utilization (m : MySQL) (h : varFloat m "max_connections" ≠ 0) :
    (checkConnectionUtilization m).Value =
      fmtPct (statusFloat m "Max_used_connections" * 100 / varFloat m "max_connections")
    ∧ (checkConnectionUtilization m).Level =
      (if statusFloat m "Max_used_connections" * 100 / varFloat m "max_connections" < 70
       then Level.ok
       else if statusFloat m "Max_used_connections" * 100 / varFloat m "max_connections" < 85
       then Level.warn
       else Level.crit) := by
  constructor <;> simp [checkConnectionUtilization, pct, h]

/-- Witness for C6 at the spec's boundary instance:
`Max_used_connections = 70`, `max_connections = 100` gives `70.00%`,
classified WARN (70 is not `< 70`), not OK. -/
theorem C6_connection_utilization_witness :
    (checkConnectionUtilization
        ⟨[("Max_used_connections", "70")], [("max_connections", "100")], ""⟩).Value = "70.00%"
    ∧ (checkConnectionUtilization
        ⟨[("Max_used_connections", "70")], [("max_connections", "100")], ""⟩).Level
      = Level.warn := by
  have hs : statusFloat ⟨[("Max_used_connections", "70")], [("max_connections", "100")], ""⟩
      "Max_used_connections" = 70 := by
    simp +decide [statusFloat, parseNumber, goParseFloat, readDigits, parseSign, List.lookup]
  have hv : varFloat ⟨[("Max_used_connections", "70")], [("max_connections", "100")], ""⟩
      "max_connections" = 100 := by
    simp +decide [varFloat, parseNumber, goParseFloat, readDigits, parseSign, List.lookup]
  obtain ⟨h1, h2⟩ := C6_connection_utilization
    ⟨[("Max_used_connections", "70")], [("max_connections", "100")], ""⟩
    (by rw [hv]; norm_num)
  rw [hs, hv] at h1 h2
  have h70 : (70 : ℚ) * 100 / 100 = 70 := by norm_num
  rw [h70] at h1 h2
  have hr : round ((70 : ℚ) * 100) = 7000 := by rw [round_eq]; norm_num
  constructor
  · rw [h1]
    simp +decide [fmtPct, fmt2, pad2, hr]
  · rw [h2, if_neg (by norm_num), if_pos (by norm_num)]

/-- C5: Table Cache Hit Rate uses `hits/(hits+misses)*100` whenever the
hit counter key exists (in particular whenever both hit and miss counters
are present), and the `Open_tables/Opened_tables*100` approximation runs
only when the hit counter key is absent; the two formulations are never
mixed in one evaluation. -/
theorem C5_table_cache_prefers_hit_miss :
    (∀ (m : MySQL) (x : String), m.Status.lookup "Table_open_cache_hits" = some x →
      statusFloat m "Table_open_cache_hits" + statusFloat m "Table_open_cache_misses" ≠ 0 →
      (checkTableCacheHitRate m).Value =
        fmtPct (statusFloat m "Table_open_cache_hits" * 100 /
          (statusFloat m "Table_open_cache_hits" + statusFloat m "Table_open_cache_misses"))
      ∧ (checkTableCacheHitRate m).Level =
        (if statusFloat m "Table_open_cache_hits" * 100 /
            (statusFloat m "Table_open_cache_hits" + statusFloat m "Table_open_cache_misses") ≥ 90
         then Level.ok else Level.warn))
    ∧ (∀ m : MySQL, m.Status.lookup "Table_open_cache_hits" = none →
      statusFloat m "Opened_tables" ≠ 0 →
      (checkTableCacheHitRate m).Value =
        fmtPct (statusFloat m "Open_tables" * 100 / statusFloat m "Opened_tables")
      ∧ (checkTableCacheHitRate m).Level =
        (if statusFloat m "Open_tables" * 100 / statusFloat m "Opened_tables" ≥ 90
         then Level.ok else Level.warn)) := by
  constructor
  · intro m x hx h
    constructor <;> simp [checkTableCacheHitRate, hx, pct, h]
  · intro m hx h
    constructor <;> simp [checkTableCacheHitRate, hx, pct, h]

/-- Witness for C5 at the spec's instance: hits=90, misses=10, open=5,
opened=1000 all present gives 90.00% (the hit/miss formulation), not the
0.50% the fallback would produce. -/
theorem C5_table_cache_prefers_hit_miss_witness :
    (checkTableCacheHitRate ⟨[("Table_open_cache_hits", "90"), ("Table_open_cache_misses", "10"),
        ("Open_tables", "5"), ("Opened_tables", "1000")], [], ""⟩).Value = "90.00%"
    ∧ (checkTableCacheHitRate ⟨[("Table_open_cache_hits", "90"), ("Table_open_cache_misses", "10"),
        ("Open_tables", "5"), ("Opened_tables", "1000")], [], ""⟩).Level = Level.ok := by
  have hs : statusFloat ⟨[("Table_open_cache_hits", "90"), ("Table_open_cache_misses", "10"),
      ("Open_tables", "5"), ("Opened_tables", "1000")], [], ""⟩ "Table_open_cache_hits" = 90 := by
    simp +decide [statusFloat, parseNumber, goParseFloat, readDigits, parseSign, List.lookup]
  have hm : statusFloat ⟨[("Table_open_cache_hits", "90"), ("Table_open_cache_misses", "10"),
      ("Open_tables", "5"), ("Opened_tables", "1000")], [], ""⟩ "Table_open_cache_misses" = 10 := by
    simp +decide [statusFloat, parseNumber, goParseFloat, readDigits, parseSign, List.lookup]
  obtain ⟨h1, h2⟩ := C5_table_cache_prefers_hit_miss.1
    ⟨[("Table_open_cache_hits", "90"), ("Table_open_cache_misses", "10"),
      ("Open_tables", "5"), ("Opened_tables", "1000")], [], ""⟩ "90" (by rfl)
    (by rw [hs, hm]; norm_num)
  rw [hs, hm] at h1 h2
  have h90 : (90 : ℚ) * 100 / (90 + 10) = 90 := by norm_num
  rw [h90] at h1 h2
  have hr : round ((90 : ℚ) * 100) = 9000 := by rw [round_eq]; norm_num
  constructor
  · rw [h1]
    simp +decide [fmtPct, fmt2, pad2, hr]
  · rw [h2, if_pos (by norm_num)]

/-- C4: Redo Log Coverage computes
`minutes = (uptimeSeconds/60) * redoCapacity / osLogWritten` with OK iff
`minutes ≥ 45`; the capacity comes from `innodb_redo_log_capacity` when
the server version is at least 8.0.30 (numeric comparison on
major.minor.patch, suffix after `-` ignored) and otherwise from
`innodb_log_files_in_group * innodb_log_file_size`; when the fallback
product is zero and the explicit source is unavailable, or when
`Innodb_os_log_written` is zero, the check is NOT_APPLICABLE. -/
theorem C4_redo_log_coverage :
    (∀ (m : MySQL) (us : String) (up w : ℚ) (vs : String) (cap : ℚ),
      m.Status.lookup "Uptime" = some us → goParseFloat us = some up →
      statusFloat m "Innodb_os_log_written" = w → w ≠ 0 →
      versionAtLeast m 8 0 30 = true →
      m.Vars.lookup "innodb_redo_log_capacity" = some vs → goParseFloat vs = some cap →
      cap ≠ 0 →
      (checkRedoLogCoverage m).Value = fmtMin ((up / 60) * cap / w)
      ∧ (checkRedoLogCoverage m).Level =
          (if (up / 60) * cap / w ≥ 45 then Level.ok else Level.warn))
    ∧ (∀ (m : MySQL) (us : String) (up w : ℚ),
      m.Status.lookup "Uptime" = some us → goParseFloat us = some up →
      statusFloat m "Innodb_os_log_written" = w → w ≠ 0 →
      versionAtLeast m 8 0 30 = false →
      varFloat m "innodb_log_files_in_group" * varFloat m "innodb_log_file_size" ≠ 0 →
      (checkRedoLogCoverage m).Value =
        fmtMin ((up / 60) *
          (varFloat m "innodb_log_files_in_group" * varFloat m "innodb_log_file_size") / w)
      ∧ (checkRedoLogCoverage m).Level =
          (if (up / 60) *
              (varFloat m "innodb_log_files_in_group" * varFloat m "innodb_log_file_size") / w
              ≥ 45
           then Level.ok else Level.warn))
    ∧ (∀ m : MySQL,
      (versionAtLeast m 8 0 30 = false
        ∨ m.Vars.lookup "innodb_redo_log_capacity" = none
        ∨ (∃ vs, m.Vars.lookup "innodb_redo_log_capacity" = some vs ∧ parseNumber vs = 0)) →
      varFloat m "innodb_log_files_in_group" * varFloat m "innodb_log_file_size" = 0 →
      (checkRedoLogCoverage m).Level = Level.skip
      ∧ (checkRedoLogCoverage m).Value = "N/A")
    ∧ (∀ suf : String,
      versionAtLeast ⟨[], [], "8.0.30-" ++ suf⟩ 8 0 30 = true
      ∧ versionAtLeast ⟨[], [], "8.0.29-" ++ suf⟩ 8 0 30 = false
      ∧ versionAtLeast ⟨[], [], "8.1.0-" ++ suf⟩ 8 0 30 = true
      ∧ versionAtLeast ⟨[], [], "5.7.44-" ++ suf⟩ 8 0 30 = false) := by
  refine ⟨?_, ?_, ?_, ?_⟩
  · intro m us up w vs cap hu hup hw hw0 hver hvs hcap hcap0
    constructor <;>
      simp [checkRedoLogCoverage, hu, hw, hw0, hver, hvs, parseNumber, hup, hcap, hcap0]
  · intro m us up w hu hup hw hw0 hver hprod
    constructor <;>
      simp [checkRedoLogCoverage, hu, hw, hw0, hver, parseNumber, hup, hprod]
  · intro m hsrc hprod
    unfold checkRedoLogCoverage
    cases hu : m.Status.lookup "Uptime"
    · simp [hu]
    · by_cases hosl : statusFloat m "Innodb_os_log_written" = 0
      · simp [hu, hosl]
      · rcases hsrc with h | h | ⟨vs, h1, h2⟩
        · simp [hu, hosl, h, hprod]
        · by_cases hver : versionAtLeast m 8 0 30 <;>
            simp [hu, hosl, h, hver, hprod]
        · by_cases hver : versionAtLeast m 8 0 30 <;>
            simp [hu, hosl, h1, h2, hver, hprod]
  · intro suf
    have h30 : dropDash (("8.0.30-" ++ suf).toList) = ['8', '.', '0', '.', '3', '0'] := by
      rw [dropDash, show ("8.0.30-" ++ suf).toList
        = '8' :: '.' :: '0' :: '.' :: '3' :: '0' :: '-' :: suf.toList from rfl]
      simp +decide [List.takeWhile]
    have h29 : dropDash (("8.0.29-" ++ suf).toList) = ['8', '.', '0', '.', '2', '9'] := by
      rw [dropDash, show ("8.0.29-" ++ suf).toList
        = '8' :: '.' :: '0' :: '.' :: '2' :: '9' :: '-' :: suf.toList from rfl]
      simp +decide [List.takeWhile]
    have h81 : dropDash (("8.1.0-" ++ suf).toList) = ['8', '.', '1', '.', '0'] := by
      rw [dropDash, show ("8.1.0-" ++ suf).toList
        = '8' :: '.' :: '1' :: '.' :: '0' :: '-' :: suf.toList from rfl]
      simp +decide [List.takeWhile]
    have h57 : dropDash (("5.7.44-" ++ suf).toList) = ['5', '.', '7', '.', '4', '4'] := by
      rw [dropDash, show ("5.7.44-" ++ suf).toList
        = '5' :: '.' :: '7' :: '.' :: '4' :: '4' :: '-' :: suf.toList from rfl]
      simp +decide [List.takeWhile]
    refine ⟨?_, ?_, ?_, ?_⟩ <;>
      simp +decide [versionAtLeast, h30, h29, h81, h57, sscanf3, readDigits, parseSign]

/-- Witness for C4 at the spec's instance: uptime 3600s, osLogWritten
1000, explicit capacity 60000 on version 8.0.30 gives 3600 minutes,
classified OK. -/
theorem C4_redo_log_coverage_witness :
    (checkRedoLogCoverage ⟨[("Uptime", "3600"), ("Innodb_os_log_written", "1000")],
        [("innodb_redo_log_capacity", "60000")], "8.0.30"⟩).Value = "3600min"
    ∧ (checkRedoLogCoverage ⟨[("Uptime", "3600"), ("Innodb_os_log_written", "1000")],
        [("innodb_redo_log_capacity", "60000")], "8.0.30"⟩).Level = Level.ok := by
  have hup : goParseFloat "3600" = some 3600 := by
    simp +decide [goParseFloat, readDigits, parseSign]
  have hcap : goParseFloat "60000" = some 60000 := by
    simp +decide [goParseFloat, readDigits, parseSign]
  have hw : statusFloat ⟨[("Uptime", "3600"), ("Innodb_os_log_written", "1000")],
      [("innodb_redo_log_capacity", "60000")], "8.0.30"⟩ "Innodb_os_log_written" = 1000 := by
    simp +decide [statusFloat, parseNumber, goParseFloat, readDigits, parseSign, List.lookup]
  have hver : versionAtLeast ⟨[("Uptime", "3600"), ("Innodb_os_log_written", "1000")],
      [("innodb_redo_log_capacity", "60000")], "8.0.30"⟩ 8 0 30 = true := by
    simp +decide [versionAtLeast, dropDash, sscanf3, readDigits, parseSign, List.takeWhile]
  obtain ⟨h1, h2⟩ := C4_redo_log_coverage.1
    ⟨[("Uptime", "3600"), ("Innodb_os_log_written", "1000")],
      [("innodb_redo_log_capacity", "60000")], "8.0.30"⟩
    "3600" 3600 1000 "60000" 60000 rfl hup hw (by norm_num) hver rfl hcap (by norm_num)
  have hmin : ((3600 : ℚ) / 60) * 60000 / 1000 = 3600 := by norm_num
  rw [hmin] at h1 h2
  have hr : round ((3600 : ℚ)) = 3600 := by rw [round_eq]; norm_num
  constructor
  · rw [h1]
    simp +decide [fmtMin, hr]
  · rw [h2, if_pos (by norm_num)]

/-! ### Locality of counter reads -/

lemma statusFloat_congr {m m' : MySQL} {k : String}
    (h : m'.Status.lookup k = m.Status.lookup k) : statusFloat m' k = statusFloat m k := by
  unfold statusFloat
  rw [h]

lemma varFloat_congr {m m' : MySQL} (h : m'.Vars = m.Vars) (k : String) :
    varFloat m' k = varFloat m k := by
  unfold varFloat
  rw [h]

lemma versionAtLeast_congr {m m' : MySQL} (h : m'.Version = m.Version) (a b e : Nat) :
    versionAtLeast m' a b e = versionAtLeast m a b e := by
  unfold versionAtLeast
  rw [h]

/-- C1 counterexample: on a snapshot whose status map misses
`Threads_created` but has `Connections = "100"`, Thread Cache Hit Rate is
OK (the missing numerator reads as 0, giving 100%), not NOT_APPLICABLE as
the claim requires. -/
theorem C1_missing_counter_counterexample :
    (⟨[("Connections", "100")], [], ""⟩ : MySQL).Status.lookup "Threads_created" = none
    ∧ statusFloat ⟨[("Connections", "100")], [], ""⟩ "Connections" = 100
    ∧ (checkThreadCacheHitRate ⟨[("Connections", "100")], [], ""⟩).Level = Level.ok
    ∧ (checkThreadCacheHitRate ⟨[("Connections", "100")], [], ""⟩).Level ≠ Level.skip := by
  have hs : statusFloat ⟨[("Connections", "100")], [], ""⟩ "Connections" = 100 := by
    simp +decide [statusFloat, parseNumber, goParseFloat, readDigits, parseSign, List.lookup]
  have hl : (checkThreadCacheHitRate ⟨[("Connections", "100")], [], ""⟩).Level = Level.ok := by
    simp +decide [checkThreadCacheHitRate, statusFloat, parseNumber, goParseFloat, readDigits,
      parseSign, List.lookup]
  exact ⟨rfl, hs, hl, by rw [hl]; intro hc; cases hc⟩

/-- C1 amended: whether a missing counter yields NOT_APPLICABLE is
per-check, not a uniform rule.  Thread Cache Hit Rate parses the missing
`Threads_created` as 0, so a snapshot missing it with `Connections`
present and nonzero is OK with value 100.00% — not NOT_APPLICABLE.
Checks that explicitly test key presence do skip on absence: Redo Log
Coverage is NOT_APPLICABLE when `Uptime` is absent, and QCache
Fragmentation is NOT_APPLICABLE when `Qcache_lowmem_prunes` is absent.
The absence of `Threads_created` cannot change any other check's
result: none of the fourteen other snapshot checks reads it. -/
theorem C1_missing_counter_localized :
    (∀ m : MySQL, m.Status.lookup "Threads_created" = none →
      statusFloat m "Connections" ≠ 0 →
      (checkThreadCacheHitRate m).Level = Level.ok
      ∧ (checkThreadCacheHitRate m).Value = "100.00%")
    ∧ (∀ m : MySQL, m.Status.lookup "Uptime" = none →
      (checkRedoLogCoverage m).Level = Level.skip
      ∧ (checkRedoLogCoverage m).Value = "N/A")
    ∧ (∀ m : MySQL, m.Status.lookup "Qcache_lowmem_prunes" = none →
      (checkQCacheFragmentation m).Level = Level.skip
      ∧ (checkQCacheFragmentation m).Value = "N/A")
    ∧ (∀ m m' : MySQL, m'.Vars = m.Vars → m'.Version = m.Version →
      (∀ k : String, k ≠ "Threads_created" → m'.Status.lookup k = m.Status.lookup k) →
      checkTableCacheHitRate m' = checkTableCacheHitRate m
      ∧ checkTableDefCacheHitRate m' = checkTableDefCacheHitRate m
      ∧ checkTableLockingEfficiency m' = checkTableLockingEfficiency m
      ∧ checkConnectionUtilization m' = checkConnectionUtilization m
      ∧ checkOpenFiles m' = checkOpenFiles m
      ∧ checkMyISAMCacheHitRate m' = checkMyISAMCacheHitRate m
      ∧ checkMyISAMKeyWriteRatio m' = checkMyISAMKeyWriteRatio m
      ∧ checkInnoDBCacheHitRate m' = checkInnoDBCacheHitRate m
      ∧ checkRedoLogCoverage m' = checkRedoLogCoverage m
      ∧ checkInnoDBDirtyPages m' = checkInnoDBDirtyPages m
      ∧ checkSortMergePassRatio m' = checkSortMergePassRatio m
      ∧ checkTempDiskData m' = checkTempDiskData m
      ∧ checkFlushingLogs m' = checkFlushingLogs m
      ∧ checkQCacheFragmentation m' = checkQCacheFragmentation m) := by
  refine ⟨?_, ?_, ?_, ?_⟩
  · intro m h hc
    have h0 : statusFloat m "Threads_created" = 0 := by simp [statusFloat, h]
    have hr : round ((100 : ℚ) * 100) = 10000 := by rw [round_eq]; norm_num
    constructor
    · simp [checkThreadCacheHitRate, h0, hc, show (50 : ℚ) < 100 from by norm_num]
    · simp +decide [checkThreadCacheHitRate, h0, hc, fmtPct, fmt2, pad2, hr,
        show (50 : ℚ) < 100 from by norm_num]
  · intro m h
    simp [checkRedoLogCoverage, h]
  · intro m h
    cases h1 : m.Status.lookup "Qcache_free_blocks" <;>
      cases h2 : m.Status.lookup "Qcache_total_blocks" <;>
      cases h4 : m.Status.lookup "Qcache_inserts" <;>
      simp [checkQCacheFragmentation, h1, h2, h, h4]
  · intro m m' hv hver hk
    refine ⟨?_, ?_, ?_, ?_, ?_, ?_, ?_, ?_, ?_, ?_, ?_, ?_, ?_, ?_⟩
    · simp only [checkTableCacheHitRate, hk "Table_open_cache_hits" (by decide),
        statusFloat_congr (hk "Table_open_cache_hits" (by decide)),
        statusFloat_congr (hk "Table_open_cache_misses" (by decide)),
        statusFloat_congr (hk "Open_tables" (by decide)),
        statusFloat_congr (hk "Opened_tables" (by decide))]
    · simp only [checkTableDefCacheHitRate,
        statusFloat_congr (hk "Open_table_definitions" (by decide)),
        statusFloat_congr (hk "Opened_table_definitions" (by decide))]
    · simp only [checkTableLockingEfficiency,
        statusFloat_congr (hk "Table_locks_immediate" (by decide)),
        statusFloat_congr (hk "Table_locks_waited" (by decide))]
    · simp only [checkConnectionUtilization,
        statusFloat_congr (hk "Max_used_connections" (by decide)), varFloat_congr hv]
    · simp only [checkOpenFiles,
        statusFloat_congr (hk "Open_files" (by decide)), varFloat_congr hv]
    · simp only [checkMyISAMCacheHitRate,
        statusFloat_congr (hk "Key_reads" (by decide)),
        statusFloat_congr (hk "Key_read_requests" (by decide))]
    · simp only [checkMyISAMKeyWriteRatio,
        statusFloat_congr (hk "Key_writes" (by decide)),
        statusFloat_congr (hk "Key_write_requests" (by decide))]
    · simp only [checkInnoDBCacheHitRate,
        statusFloat_congr (hk "Innodb_buffer_pool_read_requests" (by decide)),
        statusFloat_congr (hk "Innodb_buffer_pool_reads" (by decide))]
    · simp only [checkRedoLogCoverage, hk "Uptime" (by decide),
        statusFloat_congr (hk "Innodb_os_log_written" (by decide)),
        versionAtLeast_congr hver, varFloat_congr hv, hv]
    · simp only [checkInnoDBDirtyPages,
        statusFloat_congr (hk "Innodb_buffer_pool_pages_dirty" (by decide)),
        statusFloat_congr (hk "Innodb_buffer_pool_pages_total" (by decide))]
    · simp only [checkSortMergePassRatio,
        statusFloat_congr (hk "Sort_merge_passes" (by decide)),
        statusFloat_congr (hk "Sort_scan" (by decide)),
        statusFloat_congr (hk "Sort_range" (by decide))]
    · simp only [checkTempDiskData,
        statusFloat_congr (hk "Created_tmp_disk_tables" (by decide)),
        statusFloat_congr (hk "Created_tmp_tables" (by decide))]
    · simp only [checkFlushingLogs,
        statusFloat_congr (hk "Innodb_log_waits" (by decide)),
        statusFloat_congr (hk "Innodb_log_writes" (by decide))]
    · simp only [checkQCacheFragmentation, hk "Qcache_free_blocks" (by decide),
        hk "Qcache_total_blocks" (by decide), hk "Qcache_lowmem_prunes" (by decide),
        hk "Qcache_inserts" (by decide)]

/-- Witness for C1 at concrete snapshots: the missing-`Threads_created`
snapshot evaluates to OK; a snapshot missing `Uptime` (resp.
`Qcache_lowmem_prunes`) makes Redo Log Coverage (resp. QCache
Fragmentation) NOT_APPLICABLE; and dropping `Threads_created` from a
snapshot leaves Connection Utilization unchanged. -/
theorem C1_missing_counter_localized_witness :
    ((checkThreadCacheHitRate ⟨[("Connections", "100")], [], ""⟩).Level = Level.ok
      ∧ (checkThreadCacheHitRate ⟨[("Connections", "100")], [], ""⟩).Value = "100.00%")
    ∧ (checkRedoLogCoverage ⟨[("Innodb_os_log_written", "1000")], [], "8.0.30"⟩).Level
        = Level.skip
    ∧ (checkQCacheFragmentation ⟨[("Qcache_free_blocks", "1"), ("Qcache_total_blocks", "2"),
        ("Qcache_inserts", "3")], [], ""⟩).Level = Level.skip
    ∧ checkConnectionUtilization
        ⟨[("Max_used_connections", "70")], [("max_connections", "100")], ""⟩
      = checkConnectionUtilization
        ⟨[("Max_used_connections", "70"), ("Threads_created", "40")],
          [("max_connections", "100")], ""⟩ := by
  refine ⟨?_, ?_, ?_, ?_⟩
  · apply C1_missing_counter_localized.1
    · rfl
    · simp +decide [statusFloat, parseNumber, goParseFloat, readDigits, parseSign, List.lookup]
  · exact (C1_missing_counter_localized.2.1
      ⟨[("Innodb_os_log_written", "1000")], [], "8.0.30"⟩ rfl).1
  · exact (C1_missing_counter_localized.2.2.1
      ⟨[("Qcache_free_blocks", "1"), ("Qcache_total_blocks", "2"),
        ("Qcache_inserts", "3")], [], ""⟩ rfl).1
  · apply (C1_missing_counter_localized.2.2.2
      ⟨[("Max_used_connections", "70"), ("Threads_created", "40")],
        [("max_connections", "100")], ""⟩
      ⟨[("Max_used_connections", "70")], [("max_connections", "100")], ""⟩
      rfl rfl ?_).2.2.2.1
    intro k hkne
    by_cases h1 : k = "Max_used_connections"
    · subst h1
      rfl
    · have hb1 : (k == "Max_used_connections") = false := by
        simp [h1]
      have hb2 : (k == "Threads_created") = false := by
        simp [hkne]
      simp [List.lookup, hb1, hb2]

/-! ### The spec's parser input shape -/

/-- The input shape named by the spec for `parseNumber`: decimal integers
or decimal fractions, i.e. the regular expression
`[0-9]+(.[0-9]+)?` over the whole string.  Stated from the spec's words
for comparison against the source parser (`strconv.ParseFloat`). -/
def specDecimalShape (s : String) : Bool :=
  let (_, n, rest) := readDigits s.toList
  if n = 0 then false
  else if rest = [] then true
  else if rest.head? = some '.' then
    let (_, n2, rest2) := readDigits rest.tail
    n2 != 0 && rest2.isEmpty
  else false

lemma readDigits_head_digit (cs : List Char) (v n : Nat) (rest : List Char)
    (h : readDigits cs = (v, n, rest)) (hn : n ≠ 0) :
    ∃ c cs', cs = c :: cs' ∧ c.isDigit = true := by
  cases cs with
  | nil =>
    simp [readDigits] at h
    omega
  | cons c cs' =>
    by_cases hd : c.isDigit
    · exact ⟨c, cs', rfl, hd⟩
    · simp [readDigits, hd] at h
      omega

lemma parseSign_digit {c : Char} (cs : List Char) (h : c.isDigit = true) :
    parseSign (c :: cs) = (false, c :: cs) := by
  have h1 : c ≠ '+' := by
    intro he
    rw [he] at h
    exact absurd h (by decide)
  have h2 : c ≠ '-' := by
    intro he
    rw [he] at h
    exact absurd h (by decide)
  simp [parseSign, h1, h2]

lemma goParseFloat_isSome_of_shape (s : String) (hs : specDecimalShape s = true) :
    (goParseFloat s).isSome = true := by
  rcases hE : readDigits s.toList with ⟨v, n, rest⟩
  have hEd : readDigits s.data = (v, n, rest) := hE
  have hn : n ≠ 0 := by
    intro h0
    simp [specDecimalShape, hEd, h0] at hs
  obtain ⟨c, cs', hcs, hdig⟩ := readDigits_head_digit s.toList v n rest hE hn
  have hsign : parseSign s.toList = (false, s.toList) := by
    rw [hcs]
    exact parseSign_digit cs' hdig
  have hsignd : parseSign s.data = (false, s.data) := hsign
  by_cases hrest : rest = []
  · subst hrest
    simp [goParseFloat, hsignd, hEd, hn]
  · have hs' := hs
    simp only [specDecimalShape, String.toList, hEd] at hs'
    rw [if_neg hn, if_neg hrest] at hs'
    by_cases hdot : rest.head? = some '.'
    · rw [if_pos hdot] at hs'
      rcases hE2 : readDigits rest.tail with ⟨v2, n2, rest2⟩
      simp only [hE2] at hs'
      have hn2 : n2 ≠ 0 ∧ rest2 = [] := by
        constructor
        · intro h0
          simp [h0] at hs'
        · rcases Bool.and_eq_true_iff.mp hs' with ⟨-, h2⟩
          exact List.isEmpty_iff.mp h2
      simp [goParseFloat, hsignd, hEd, hdot, hE2, hn, hn2.1, hn2.2,
        show ¬ (n + n2 = 0) from by omega]
    · rw [if_neg hdot] at hs'
      cases hs'

/-- C7 counterexample: `"1e3"` is not of the decimal-integer or
decimal-fraction shape, yet the program's parser (Go
`strconv.ParseFloat`, used by `statusFloat`/`varFloat`) accepts it as
1000, not 0 — so "accepts exactly that shape, else returns 0" fails. -/
theorem C7_parser_shape_counterexample :
    specDecimalShape "1e3" = false
    ∧ statusFloat ⟨[("X", "1e3")], [], ""⟩ "X" = 1000
    ∧ statusFloat ⟨[("X", "1e3")], [], ""⟩ "X" ≠ 0 := by
  refine ⟨?_, ?_, ?_⟩
  · simp +decide [specDecimalShape, readDigits]
  · simp +decide [statusFloat, parseNumber, goParseFloat, readDigits, parseSign, List.lookup]
  · simp +decide [statusFloat, parseNumber, goParseFloat, readDigits, parseSign, List.lookup]

/-- C7 amended: the parser applied to every status counter and
configuration variable is total (modelled as a function into ℚ: it never
raises), accepts every decimal-integer or decimal-fraction string, and
returns 0 on every string it rejects; but its accepted language is
strictly larger than that shape (e.g. exponent notation), so "exactly"
does not hold. -/
theorem C7_parser_amended :
    (∀ s : String, specDecimalShape s = true → (goParseFloat s).isSome = true)
    ∧ (∀ s : String, goParseFloat s = none → parseNumber s = 0)
    ∧ (∃ s : String, specDecimalShape s = false ∧ parseNumber s ≠ 0) := by
  refine ⟨goParseFloat_isSome_of_shape, ?_, ?_⟩
  · intro s h
    simp [parseNumber, h]
  · refine ⟨"1e3", ?_, ?_⟩
    · simp +decide [specDecimalShape, readDigits]
    · simp +decide [parseNumber, goParseFloat, readDigits, parseSign]

/-- Witness for C7 at concrete strings: the shaped string `"12.5"` is
accepted and the rejected string `"abc"` parses to 0. -/
theorem C7_parser_amended_witness :
    (goParseFloat "12.5").isSome = true ∧ parseNumber "abc" = 0 := by
  constructor
  · exact C7_parser_amended.1 "12.5" (by simp +decide [specDecimalShape, readDigits])
  · exact C7_parser_amended.2.1 "abc" (by simp +decide [goParseFloat, readDigits, parseSign])

/-- C9: evaluating the checks leaves the snapshot unchanged.  In the
state-threading embedding of the Go runners (the snapshot pointer passed
through every check call in sequence, no check body writing to
`Status`, `Vars` or `Version`), running a whole category's check
sequence returns exactly the pure per-check results on the original
snapshot, and returns the snapshot state as received. -/
theorem C9_snapshot_read_only (m : MySQL) :
    RunCacheChecksSt m = (RunCacheChecks m, m)
    ∧ RunEngineChecksSt m = (RunEngineChecks m, m) := by
  constructor <;> rfl

/-- Witness for C9 at a concrete snapshot. -/
theorem C9_snapshot_read_only_witness :
    RunCacheChecksSt ⟨[("Connections", "100")], [], ""⟩
      = (RunCacheChecks ⟨[("Connections", "100")], [], ""⟩, ⟨[("Connections", "100")], [], ""⟩) :=
  (C9_snapshot_read_only ⟨[("Connections", "100")], [], ""⟩).1

/-- Witness for C10 at a concrete category and category list. -/
theorem C10_aggregation_never_skip_witness :
    ({ Name := "c", Checks := [mkCheck Level.crit, mkCheck Level.skip] } : Category).WorstLevel
        ≠ Level.skip
    ∧ OverallLevel [{ Name := "c", Checks := [mkCheck Level.skip] }] ≠ Level.skip :=
  ⟨C10_aggregation_never_skip.1 { Name := "c", Checks := [mkCheck Level.crit, mkCheck Level.skip] },
    C10_aggregation_never_skip.2.1 [{ Name := "c", Checks := [mkCheck Level.skip] }]⟩

end MySQLCheck
